import Mathlib

/-! Verification development for the EchoSpot proximity / notification engine.

The definitions below are a shallow embedding of the code:
  - the notification deduplicator of app/notifications (module-level
    tracker, sendProximityNotification, resetNotificationForNotes);
  - the background location task of utils/LocationService
    (defineLocationTask handler: per-note trigger evaluation and the
    persisted records it writes);
  - the map screen of app/(tabs)/index.tsx (isValidCoordinate,
    calculateDistance, handleSingleNoteSelection, handlePlayButtonPress);
  - the foreground consumption of the pending-notification record in
    app/(tabs)/_layout.tsx.

Machine numbers are modelled with exact arithmetic: coordinates and
distances as rationals, epoch-millisecond timestamps as integers.  The
JavaScript value Infinity returned by the map screen distance function is
modelled as the top element of EReal.  The haversine core uses real
trigonometric functions; every branching decision proved about is taken
on decidable (rational / integer / list) data.
-/

namespace EchoSpot

open Classical

/-! Data model -/

/-- A locally cached note, as stored under the savedNotes key.  Field
range is the trigger radius in metres; it is optional because the JSON
records may lack it (JS undefined).  Field hidden_until is the optional
time lock, an epoch-millisecond timestamp. -/
structure Note where
  id : String
  title : String
  latitude : ℚ
  longitude : ℚ
  range : Option ℚ
  hidden_until : Option ℤ
  isDiscovered : Bool
deriving DecidableEq, Repr

/-- The per-note output pushed onto triggeredNotes by the background task:
JS object fields id, title, distance (rounded to whole metres). -/
structure TriggerEvent where
  noteId : String
  title : String
  distanceMeters : ℤ
deriving DecidableEq, Repr

/-- The pendingNotifications record.  The noteIds field is an Option
because the writer in the background task omits it; the foreground reader
destructures it with a default of the empty list. -/
structure PendingRecord where
  count : ℕ
  noteIds : Option (List String)
  timestamp : ℤ
deriving DecidableEq, Repr

/-! Notification deduplicator (app/notifications) -/

/-- Cooldown between proximity notifications, in milliseconds
(NOTIFICATION_COOLDOWN = 60000 in the source). -/
def NOTIFICATION_COOLDOWN : ℤ := 60000

/-- The module-level notificationTracker object: last notification time
and the set of note ids already notified about.  The JS Set is modelled
as a duplicate-free insertion list. -/
structure NotifTracker where
  lastNotificationTime : ℤ
  notifiedNoteIds : List String
deriving DecidableEq, Repr

/-- JS Set.add: appends the id unless already present. -/
def insertId (ids : List String) (id : String) : List String :=
  if id ∈ ids then ids else ids ++ [id]

/-- noteIds.forEach(id => notifiedNoteIds.add(id)). -/
def addAll (ids new : List String) : List String :=
  new.foldl insertId ids

/-- Result of one call to sendProximityNotification: the tracker after
the call, whether a platform notification was scheduled, and the payload
(count and data.noteIds) of the scheduled notification when there is
one. -/
structure SendResult where
  tracker : NotifTracker
  sent : Bool
  payload : Option (ℕ × List String)
deriving DecidableEq, Repr

/-- sendProximityNotification(count, noteIds) from app/notifications.
The emitOk argument models whether the platform call
Notifications.scheduleNotificationAsync succeeds; when it throws, the
surrounding catch returns false before the tracker is updated.  The
branches mirror the source: (1) global cooldown check against
lastNotificationTime; (2) newNoteIds := noteIds not yet in the notified
set, and a skip when noteIds is nonempty and newNoteIds is empty;
(3) on success the tracker records now and adds every candidate id, and
the scheduled notification carries the full noteIds list. -/
def sendProximityNotification (tracker : NotifTracker) (now : ℤ)
    (count : ℕ) (noteIds : List String) (emitOk : Bool) : SendResult :=
  if now - tracker.lastNotificationTime < NOTIFICATION_COOLDOWN then
    ⟨tracker, false, none⟩
  else
    let newNoteIds := noteIds.filter (fun id => decide (id ∉ tracker.notifiedNoteIds))
    if noteIds.length > 0 ∧ newNoteIds.length = 0 then
      ⟨tracker, false, none⟩
    else if emitOk then
      ⟨⟨now, addAll tracker.notifiedNoteIds noteIds⟩, true, some (count, noteIds)⟩
    else
      ⟨tracker, false, none⟩

/-- resetNotificationForNotes: deletes the given ids from the notified
set (called when the user has listened to the notes). -/
def resetNotificationForNotes (tracker : NotifTracker) (noteIds : List String) :
    NotifTracker :=
  ⟨tracker.lastNotificationTime, tracker.notifiedNoteIds.filter (fun id => decide (id ∉ noteIds))⟩

/-! Background location task (utils/LocationService) -/

/-- isUnlocked of the task handler:
not note.hidden_until, or new Date(note.hidden_until) <= new Date(). -/
def isUnlocked (now : ℤ) (hiddenUntil : Option ℤ) : Bool :=
  match hiddenUntil with
  | none => true
  | some t => decide (t ≤ now)

/-- Per-note body of the savedNotes loop in the background task handler,
given the computed distance d in metres.  Discovered notes are skipped.
The threshold is note.range with no fallback: when range is absent the
JS comparison distance <= undefined is false, so such a note never
triggers (the adjacent comment in the source promises a default).  A
trigger event carries the id, the title and Math.round of the
distance. -/
def evalNote (d : ℚ) (now : ℤ) (note : Note) : Option TriggerEvent :=
  if note.isDiscovered then none
  else
    match note.range with
    | none => none
    | some r =>
      if d ≤ r ∧ isUnlocked now note.hidden_until = true then
        some ⟨note.id, note.title, round d⟩
      else
        none

/-- The three storage keys the background task reads and writes. -/
structure TaskStorage where
  savedNotes : Option (List Note)
  triggeredNotes : Option (List TriggerEvent)
  pendingNotifications : Option PendingRecord
deriving DecidableEq, Repr

/-- One invocation of the background-location-task handler over storage,
with the distance computation abstracted as a function of the note (the
handler calls calculateDistance(latitude, longitude, note.latitude,
note.longitude) per note).  When savedNotes is absent the handler returns
with no writes.  When at least one note triggers, the handler writes the
triggered list, the surviving notes, and a pendingNotifications record
holding count and a timestamp only (the ISO string of now is modelled as
the integer now). -/
def backgroundTaskStep (dist : Note → ℚ) (now : ℤ) (st : TaskStorage) :
    TaskStorage :=
  match st.savedNotes with
  | none => st
  | some notes =>
    let triggered := notes.filterMap (fun n => evalNote (dist n) now n)
    let notesToKeep := notes.filter (fun n => !n.isDiscovered && (evalNote (dist n) now n).isNone)
    if triggered.length > 0 then
      ⟨some notesToKeep, some triggered, some ⟨triggered.length, none, now⟩⟩
    else
      st

/-! Foreground consumption of the pending record (app/(tabs)/_layout) -/

/-- Staleness window for pending records: 15 * 60 * 1000 ms. -/
def STALE_WINDOW : ℤ := 900000

/-- Result of the pendingNotifications block of setupBackgroundServices. -/
structure ConsumeResult where
  tracker : NotifTracker
  sent : Bool
  pendingAfter : Option PendingRecord
deriving DecidableEq, Repr

/-- The pendingNotifications block of setupBackgroundServices: when a
record exists and is younger than 15 minutes, its count and noteIds
(defaulting to the empty list) are forwarded to
sendProximityNotification; in either age case the record is removed
afterwards. -/
def consumePending (rec : Option PendingRecord) (now : ℤ)
    (tracker : NotifTracker) (emitOk : Bool) : ConsumeResult :=
  match rec with
  | none => ⟨tracker, false, none⟩
  | some r =>
    if now - r.timestamp < STALE_WINDOW then
      let res := sendProximityNotification tracker now r.count (r.noteIds.getD []) emitOk
      ⟨res.tracker, res.sent, none⟩
    else
      ⟨tracker, false, none⟩

/-! Map screen distance and discovery (app/(tabs)/index.tsx) -/

/-- isValidCoordinate from the map screen: both coordinates inside the
WGS-84 ranges (the null / NaN / typeof guards of the source are vacuous
over exact rationals). -/
def isValidCoordinate (lat lng : ℚ) : Bool :=
  decide (-90 ≤ lat) && decide (lat ≤ 90) && decide (-180 ≤ lng) && decide (lng ≤ 180)

/-- Math.atan2 restricted to the closed first quadrant, the only region
the haversine formula feeds it (both arguments are square roots). -/
noncomputable def atan2 (y x : ℝ) : ℝ :=
  if 0 < x then Real.arctan (y / x)
  else if x = 0 ∧ y = 0 then 0
  else Real.pi / 2

/-- The haversine great-circle distance in metres on the 6371000 m
sphere, exactly as written in the map screen (angles through π/180,
c = 2 atan2(sqrt a, sqrt (1 - a))). -/
noncomputable def haversineMeters (lat1 lon1 lat2 lon2 : ℚ) : ℝ :=
  let R : ℝ := 6371000
  let phi1 : ℝ := (lat1 : ℝ) * Real.pi / 180
  let phi2 : ℝ := (lat2 : ℝ) * Real.pi / 180
  let dphi : ℝ := ((lat2 : ℝ) - (lat1 : ℝ)) * Real.pi / 180
  let dlam : ℝ := ((lon2 : ℝ) - (lon1 : ℝ)) * Real.pi / 180
  let a : ℝ := Real.sin (dphi / 2) ^ 2 +
    Real.cos phi1 * Real.cos phi2 * Real.sin (dlam / 2) ^ 2
  let c : ℝ := 2 * atan2 (Real.sqrt a) (Real.sqrt (1 - a))
  R * c

/-- calculateDistance of the map screen: validates both points and
returns Infinity (modelled as the top element of EReal) when either is
out of range, otherwise the haversine distance. -/
noncomputable def calculateDistance (lat1 lon1 lat2 lon2 : ℚ) : EReal :=
  if isValidCoordinate lat1 lon1 && isValidCoordinate lat2 lon2 then
    ((haversineMeters lat1 lon1 lat2 lon2 : ℝ) : EReal)
  else
    ⊤

/-- Default proximity threshold of the map screen
(LOCATION_THRESHOLD = 50 metres). -/
def LOCATION_THRESHOLD : ℚ := 50

/-- note.range or LOCATION_THRESHOLD: the JS fallback also fires on a
stored range of 0, which is falsy. -/
def noteThreshold (range : Option ℚ) : ℚ :=
  match range with
  | none => LOCATION_THRESHOLD
  | some r => if r = 0 then LOCATION_THRESHOLD else r

/-- The condition under which handleSingleNoteSelection marks the note
discovered: a current location exists, the note coordinates pass
isValidCoordinate (the early-return guard), the computed distance is
within the threshold, and the note is not already discovered. -/
def marksDiscovered (loc : Option (ℚ × ℚ)) (note : Note) : Prop :=
  match loc with
  | none => False
  | some (la, lo) =>
    isValidCoordinate note.latitude note.longitude = true ∧
    calculateDistance la lo note.latitude note.longitude ≤
      (((noteThreshold note.range : ℚ) : ℝ) : EReal) ∧
    note.isDiscovered = false

/-- The condition under which handlePlayButtonPress reaches playAudio:
a current location exists and the computed distance is within the
threshold (out of range raises an alert instead). -/
def playsNote (loc : Option (ℚ × ℚ)) (note : Note) : Prop :=
  match loc with
  | none => False
  | some (la, lo) =>
    calculateDistance la lo note.latitude note.longitude ≤
      (((noteThreshold note.range : ℚ) : ℝ) : EReal)

/-! Helper lemmas -/

/-- An invalid endpoint forces the map screen distance to Infinity. -/
theorem calculateDistance_top_of_invalid {lat1 lon1 lat2 lon2 : ℚ}
    (h : isValidCoordinate lat1 lon1 = false ∨ isValidCoordinate lat2 lon2 = false) :
    calculateDistance lat1 lon1 lat2 lon2 = ⊤ := by
  unfold calculateDistance
  rcases h with h | h <;> simp [h]

/-- Infinity is never within a finite threshold. -/
theorem not_top_le_coe (r : ℝ) : ¬ ((⊤ : EReal) ≤ (r : EReal)) := by
  intro h
  exact EReal.coe_ne_top r (top_le_iff.mp h)


/-- Unfolded form of sendProximityNotification (the let binding
zeta-reduced), convenient for case analysis. -/
theorem sendProximityNotification_eq (tracker : NotifTracker) (now : ℤ)
    (count : ℕ) (ids : List String) (emitOk : Bool) :
    sendProximityNotification tracker now count ids emitOk =
      if now - tracker.lastNotificationTime < NOTIFICATION_COOLDOWN then
        ⟨tracker, false, none⟩
      else if ids.length > 0 ∧
          (ids.filter (fun id => decide (id ∉ tracker.notifiedNoteIds))).length = 0 then
        ⟨tracker, false, none⟩
      else if emitOk then
        ⟨⟨now, addAll tracker.notifiedNoteIds ids⟩, true, some (count, ids)⟩
      else
        ⟨tracker, false, none⟩ := rfl

/-- The skip condition of the second gate restated: the candidate list is
nonempty and every candidate is already in the notified set. -/
theorem allNotified_iff (tracker : NotifTracker) (ids : List String) :
    (ids.length > 0 ∧
      (ids.filter (fun id => decide (id ∉ tracker.notifiedNoteIds))).length = 0) ↔
    (ids ≠ [] ∧ ∀ id ∈ ids, id ∈ tracker.notifiedNoteIds) := by
  constructor
  · rintro ⟨hpos, hz⟩
    have hne : ids ≠ [] := by
      intro hnil
      subst hnil
      simp at hpos
    refine ⟨hne, ?_⟩
    intro x hx
    by_contra hxn
    have hmem : x ∈ ids.filter (fun id => decide (id ∉ tracker.notifiedNoteIds)) :=
      List.mem_filter.mpr ⟨hx, by simpa using hxn⟩
    have := List.length_pos.mpr (List.ne_nil_of_mem hmem)
    omega
  · rintro ⟨hne, hall⟩
    refine ⟨List.length_pos.mpr hne, ?_⟩
    have hnil : ids.filter (fun id => decide (id ∉ tracker.notifiedNoteIds)) = [] := by
      rw [List.filter_eq_nil_iff]
      intro a ha
      simpa using hall a ha
    rw [hnil]
    rfl

/-! Claim theorems -/

/-- C2, counterexample: the cooldown gate alone blocks everything.  With
lastNotificationTime 0, now 1000 (inside the 60 s window) and the single
candidate id a still Fresh (not in the notified set), no notification is
allowed, contradicting the claim that Fresh candidates pass during an
active cooldown. -/
theorem cooldown_blocks_fresh_candidate :
    (sendProximityNotification ⟨0, []⟩ 1000 1 ["a"] true).sent = false ∧
    (1000 : ℤ) - (NotifTracker.mk 0 []).lastNotificationTime < NOTIFICATION_COOLDOWN ∧
    "a" ∉ (NotifTracker.mk 0 []).notifiedNoteIds := by
  decide

/-- C2, amended: the gate returns no allowed ids exactly when the
cooldown window is active (regardless of candidate freshness) or when
the candidate list is nonempty and every candidate id is already
notified. -/
theorem sendProximity_blocks_iff (tracker : NotifTracker) (now : ℤ)
    (count : ℕ) (ids : List String) :
    (sendProximityNotification tracker now count ids true).sent = false ↔
      (now - tracker.lastNotificationTime < NOTIFICATION_COOLDOWN ∨
        (ids ≠ [] ∧ ∀ id ∈ ids, id ∈ tracker.notifiedNoteIds)) := by
  rw [sendProximityNotification_eq]
  by_cases h1 : now - tracker.lastNotificationTime < NOTIFICATION_COOLDOWN
  · rw [if_pos h1]
    exact ⟨fun _ => Or.inl h1, fun _ => rfl⟩
  · rw [if_neg h1]
    by_cases h2 : ids.length > 0 ∧
        (ids.filter (fun id => decide (id ∉ tracker.notifiedNoteIds))).length = 0
    · rw [if_pos h2]
      have h3 := (allNotified_iff tracker ids).mp h2
      exact ⟨fun _ => Or.inr h3, fun _ => rfl⟩
    · rw [if_neg h2]
      have h3 : ¬ (ids ≠ [] ∧ ∀ id ∈ ids, id ∈ tracker.notifiedNoteIds) :=
        fun hc => h2 ((allNotified_iff tracker ids).mpr hc)
      constructor
      · intro hs
        exact absurd hs (by simp)
      · rintro (hc | hc)
        · exact absurd hc h1
        · exact absurd hc h3

/-- C3, counterexample: with id a already notified and id b fresh, the
emitted notification payload carries both ids, including the
already-notified a, although no reset was performed for a. -/
theorem notified_id_in_emitted_payload :
    (sendProximityNotification ⟨0, ["a"]⟩ 100000 2 ["a", "b"] true).payload =
      some (2, ["a", "b"]) ∧
    "a" ∈ (NotifTracker.mk 0 ["a"]).notifiedNoteIds := by
  decide

/-- C3, amended: already-notified ids are not filtered from the emitted
payload.  Whenever a notification is emitted, its payload is the full
candidate list; emission only happens outside the cooldown and only when
the candidate list is empty or contains at least one fresh id. -/
theorem emitted_payload_carries_all_candidates (tracker : NotifTracker)
    (now : ℤ) (count : ℕ) (ids : List String) (emitOk : Bool)
    (p : ℕ × List String)
    (h : (sendProximityNotification tracker now count ids emitOk).payload = some p) :
    p = (count, ids) ∧
    ¬ (now - tracker.lastNotificationTime < NOTIFICATION_COOLDOWN) ∧
    (ids = [] ∨ ∃ id ∈ ids, id ∉ tracker.notifiedNoteIds) := by
  rw [sendProximityNotification_eq] at h
  by_cases h1 : now - tracker.lastNotificationTime < NOTIFICATION_COOLDOWN
  · rw [if_pos h1] at h
    exact absurd h (by simp)
  · rw [if_neg h1] at h
    by_cases h2 : ids.length > 0 ∧
        (ids.filter (fun id => decide (id ∉ tracker.notifiedNoteIds))).length = 0
    · rw [if_pos h2] at h
      exact absurd h (by simp)
    · rw [if_neg h2] at h
      cases emitOk with
      | false => simp at h
      | true =>
        refine ⟨by simpa using h.symm, h1, ?_⟩
        by_cases he : ids = []
        · exact Or.inl he
        · right
          have hlen : 0 < ids.length := List.length_pos.mpr he
          have hf : ids.filter (fun id => decide (id ∉ tracker.notifiedNoteIds)) ≠ [] := by
            intro hnil
            exact h2 ⟨hlen, by rw [hnil]; rfl⟩
          obtain ⟨x, hx⟩ := List.exists_mem_of_ne_nil _ hf
          have hm := List.mem_filter.mp hx
          exact ⟨x, hm.1, by simpa using hm.2⟩

/-- C3, witness for the amended theorem at a concrete fresh candidate. -/
theorem emitted_payload_carries_all_candidates_witness :
    ((1 : ℕ), ["x"]) = ((1 : ℕ), ["x"]) ∧
    ¬ ((100000 : ℤ) - (NotifTracker.mk 0 []).lastNotificationTime < NOTIFICATION_COOLDOWN) ∧
    ((["x"] : List String) = [] ∨
      ∃ id ∈ (["x"] : List String), id ∉ (NotifTracker.mk 0 []).notifiedNoteIds) :=
  emitted_payload_carries_all_candidates ⟨0, []⟩ 100000 1 ["x"] true (1, ["x"]) (by decide)

/-- C9: the gate checks themselves never transition the tracker, and the
tracker is committed only after the platform emission is confirmed: when
nothing was sent (a gate blocked, or the schedule call failed) the
tracker is unchanged, and with a failing emission the tracker is always
unchanged. -/
theorem tracker_unchanged_without_emission (tracker : NotifTracker) (now : ℤ)
    (count : ℕ) (ids : List String) (emitOk : Bool) :
    ((sendProximityNotification tracker now count ids emitOk).sent = false →
      (sendProximityNotification tracker now count ids emitOk).tracker = tracker) ∧
    (sendProximityNotification tracker now count ids false).tracker = tracker := by
  constructor
  · intro h
    rw [sendProximityNotification_eq] at h ⊢
    by_cases h1 : now - tracker.lastNotificationTime < NOTIFICATION_COOLDOWN
    · rw [if_pos h1]
    · rw [if_neg h1] at h ⊢
      by_cases h2 : ids.length > 0 ∧
          (ids.filter (fun id => decide (id ∉ tracker.notifiedNoteIds))).length = 0
      · rw [if_pos h2]
      · rw [if_neg h2] at h ⊢
        cases emitOk with
        | false => simp
        | true => simp at h
  · rw [sendProximityNotification_eq]
    split_ifs <;> simp_all

/-- C9, witness: a gate-blocked call and a failing emission both leave
the concrete tracker untouched. -/
theorem tracker_unchanged_without_emission_witness :
    (sendProximityNotification ⟨0, []⟩ 0 1 ["a"] true).tracker = ⟨0, []⟩ ∧
    (sendProximityNotification ⟨0, []⟩ 0 1 ["a"] false).tracker = ⟨0, []⟩ :=
  ⟨(tracker_unchanged_without_emission ⟨0, []⟩ 0 1 ["a"] true).1 (by decide),
    (tracker_unchanged_without_emission ⟨0, []⟩ 0 1 ["a"] false).2⟩

/-- C8, counterexample: a pending record well inside the 15 minute
window is forwarded, but the dedup cooldown (a notification 20 s
earlier) suppresses the platform notification; nothing is surfaced even
though the record was fresh, and the record is cleared anyway. -/
theorem fresh_record_suppressed_by_cooldown :
    (consumePending (some ⟨3, none, 0⟩) 30000 ⟨10000, []⟩ true).sent = false ∧
    (30000 : ℤ) - (PendingRecord.mk 3 none 0).timestamp < STALE_WINDOW := by
  decide

/-- C8, amended: the consumer always clears the record; a fresh record
(younger than 15 minutes) is forwarded to the dedup-gated sender, whose
gates decide whether a notification actually appears, while a stale
record is discarded without any send attempt and without touching the
tracker. -/
theorem consumePending_spec (r : PendingRecord) (now : ℤ)
    (tracker : NotifTracker) (emitOk : Bool) :
    (consumePending (some r) now tracker emitOk).pendingAfter = none ∧
    (now - r.timestamp < STALE_WINDOW →
      (consumePending (some r) now tracker emitOk).sent =
        (sendProximityNotification tracker now r.count (r.noteIds.getD []) emitOk).sent) ∧
    (STALE_WINDOW ≤ now - r.timestamp →
      (consumePending (some r) now tracker emitOk).sent = false ∧
      (consumePending (some r) now tracker emitOk).tracker = tracker) := by
  by_cases h : now - r.timestamp < STALE_WINDOW
  · simp only [consumePending]
    rw [if_pos h]
    exact ⟨rfl, fun _ => rfl, fun hs => absurd h (not_lt.mpr hs)⟩
  · simp only [consumePending]
    rw [if_neg h]
    exact ⟨rfl, fun hf => absurd hf h, fun _ => ⟨rfl, rfl⟩⟩

/-- C8, witness: a 16-minute-old record is cleared, nothing is sent, and
the tracker is untouched. -/
theorem consumePending_spec_witness :
    (consumePending (some ⟨2, none, 0⟩) 960000 ⟨0, []⟩ true).pendingAfter = none ∧
    (consumePending (some ⟨2, none, 0⟩) 960000 ⟨0, []⟩ true).sent = false ∧
    (consumePending (some ⟨2, none, 0⟩) 960000 ⟨0, []⟩ true).tracker = ⟨0, []⟩ :=
  ⟨(consumePending_spec ⟨2, none, 0⟩ 960000 ⟨0, []⟩ true).1,
    ((consumePending_spec ⟨2, none, 0⟩ 960000 ⟨0, []⟩ true).2.2 (by decide)).1,
    ((consumePending_spec ⟨2, none, 0⟩ 960000 ⟨0, []⟩ true).2.2 (by decide)).2⟩

/-- C1: at the failing input the claim breaks.  For a note whose range
is unset, undiscovered and unlocked, at computed distance 0 the claim
(and the adjacent source comment promising note range or default)
requires a trigger event, but the handler compares against the absent
range and emits nothing. -/
theorem unset_range_note_never_triggers :
    evalNote 0 0 ⟨"n1", "t1", 0, 0, none, none, false⟩ = none ∧
    (Note.mk "n1" "t1" 0 0 none none false).isDiscovered = false ∧
    isUnlocked 0 (Note.mk "n1" "t1" 0 0 none none false).hidden_until = true := by
  decide

/-- C4: a note already marked discovered never produces a trigger event,
whatever the computed distance, the time and the remaining fields. -/
theorem discovered_note_never_triggers (d : ℚ) (now : ℤ) (note : Note)
    (h : note.isDiscovered = true) : evalNote d now note = none := by
  unfold evalNote
  rw [if_pos h]

/-- C4, witness: a concrete discovered note at distance 0 produces no
trigger event. -/
theorem discovered_note_never_triggers_witness :
    (Note.mk "n2" "t2" 0 0 (some 100) none true).isDiscovered = true ∧
    evalNote 0 0 ⟨"n2", "t2", 0, 0, some 100, none, true⟩ = none :=
  ⟨rfl, discovered_note_never_triggers 0 0 ⟨"n2", "t2", 0, 0, some 100, none, true⟩ rfl⟩

/-- C5: the time lock gates triggering exactly as claimed.  While the
evaluation time is strictly before hidden_until the note never produces
a trigger event, whatever the distance; once hidden_until is no longer
in the future the lock stops blocking, and an undiscovered in-range note
triggers. -/
theorem hidden_until_gates_trigger (d : ℚ) (now : ℤ) (note : Note) (t : ℤ)
    (ht : note.hidden_until = some t) :
    (now < t → evalNote d now note = none) ∧
    (t ≤ now → note.isDiscovered = false →
      ∀ r, note.range = some r → d ≤ r →
        evalNote d now note = some ⟨note.id, note.title, round d⟩) := by
  constructor
  · intro hlt
    have hu : isUnlocked now note.hidden_until = false := by
      rw [ht]
      simpa [isUnlocked] using not_le.mpr hlt
    unfold evalNote
    cases hd : note.isDiscovered
    · cases hr : note.range
      · simp
      · simp [hu]
    · simp
  · intro hnow hdisc r hr hd
    have hu : isUnlocked now note.hidden_until = true := by
      rw [ht]
      simpa [isUnlocked] using hnow
    simp [evalNote, hdisc, hr, hu, hd]

/-- C5, witness: a note time-locked until 1000 does not trigger at time
999 even at distance 0, and triggers at time 1000. -/
theorem hidden_until_gates_trigger_witness :
    evalNote 0 999 ⟨"n5", "t5", 0, 0, some 100, some 1000, false⟩ = none ∧
    evalNote 0 1000 ⟨"n5", "t5", 0, 0, some 100, some 1000, false⟩ =
      some ⟨"n5", "t5", 0⟩ := by
  refine ⟨(hidden_until_gates_trigger 0 999 ⟨"n5", "t5", 0, 0, some 100, some 1000, false⟩
    1000 rfl).1 (by decide), ?_⟩
  have h := (hidden_until_gates_trigger 0 1000 ⟨"n5", "t5", 0, 0, some 100, some 1000, false⟩
    1000 rfl).2 (by decide) rfl 100 rfl (by norm_num)
  simpa using h

/-- C7, counterexample: a run of the background task in which one note
triggers persists a pendingNotifications record with count 1 and the
timestamp but with no note-id list (noteIds is absent), while the
triggered ids are written to the separate triggeredNotes key. -/
theorem pending_record_omits_note_ids :
    (backgroundTaskStep (fun _ => 0) 5
      ⟨some [⟨"n7", "t7", 0, 0, some 100, none, false⟩], none, none⟩).pendingNotifications =
      some ⟨1, none, 5⟩ ∧
    (backgroundTaskStep (fun _ => 0) 5
      ⟨some [⟨"n7", "t7", 0, 0, some 100, none, false⟩], none, none⟩).triggeredNotes =
      some [⟨"n7", "t7", 0⟩] := by
  norm_num [backgroundTaskStep, evalNote, isUnlocked, List.filterMap_cons,
    List.filterMap_nil]

/-- C7, amended: after a triggering evaluation the persisted
pendingNotifications record carries the count of triggered notes and a
timestamp but not the note ids; the trigger events (ids, titles,
distances) are persisted separately under the triggeredNotes key. -/
theorem pending_record_contents (dist : Note → ℚ) (now : ℤ)
    (st : TaskStorage) (notes : List Note)
    (hn : st.savedNotes = some notes)
    (ht : notes.filterMap (fun n => evalNote (dist n) now n) ≠ []) :
    (backgroundTaskStep dist now st).pendingNotifications =
      some ⟨(notes.filterMap (fun n => evalNote (dist n) now n)).length, none, now⟩ ∧
    (backgroundTaskStep dist now st).triggeredNotes =
      some (notes.filterMap (fun n => evalNote (dist n) now n)) := by
  obtain ⟨sn, tn, pn⟩ := st
  simp only at hn
  subst hn
  simp only [backgroundTaskStep]
  rw [if_pos (List.length_pos.mpr ht)]
  exact ⟨rfl, rfl⟩

/-- C7, witness for the amended theorem at a concrete triggering run. -/
theorem pending_record_contents_witness :
    (backgroundTaskStep (fun _ => 0) 7
      ⟨some [⟨"n8", "t8", 0, 0, some 60, none, false⟩], none, none⟩).pendingNotifications =
      some ⟨([⟨"n8", "t8", 0, 0, some 60, none, false⟩] : List Note).filterMap
        (fun n => evalNote ((fun _ => 0) n) 7 n) |>.length, none, 7⟩ ∧
    (backgroundTaskStep (fun _ => 0) 7
      ⟨some [⟨"n8", "t8", 0, 0, some 60, none, false⟩], none, none⟩).triggeredNotes =
      some (([⟨"n8", "t8", 0, 0, some 60, none, false⟩] : List Note).filterMap
        (fun n => evalNote ((fun _ => 0) n) 7 n)) :=
  pending_record_contents (fun _ => 0) 7
    ⟨some [⟨"n8", "t8", 0, 0, some 60, none, false⟩], none, none⟩
    [⟨"n8", "t8", 0, 0, some 60, none, false⟩] rfl (by decide)

/-- C6: at the failing input (latitude 200, outside the valid range) the
map screen distance function does not fail with an InvalidCoordinate
condition; it returns the numeric value Infinity (modelled as the top
element of EReal), merely logging a warning. -/
theorem invalid_coordinates_return_infinity :
    calculateDistance 200 0 0 0 = (⊤ : EReal) :=
  calculateDistance_top_of_invalid (Or.inl (by decide))

/-- C10: the map screen distance function is total and returns Infinity
whenever either endpoint is out of range, and since Infinity is within
no finite threshold such a note is never marked discovered by
handleSingleNoteSelection and never reaches playAudio through
handlePlayButtonPress. -/
theorem invalid_note_never_discovered_or_played (la lo : ℚ) (note : Note)
    (h : isValidCoordinate la lo = false ∨
      isValidCoordinate note.latitude note.longitude = false) :
    calculateDistance la lo note.latitude note.longitude = ⊤ ∧
    ¬ marksDiscovered (some (la, lo)) note ∧
    ¬ playsNote (some (la, lo)) note := by
  have htop := calculateDistance_top_of_invalid h
  refine ⟨htop, ?_, ?_⟩
  · intro hm
    simp only [marksDiscovered] at hm
    obtain ⟨hv, hle, _⟩ := hm
    rcases h with h | h
    · rw [htop] at hle
      exact not_top_le_coe _ hle
    · rw [hv] at h
      cases h
  · intro hp
    simp only [playsNote] at hp
    rw [htop] at hp
    exact not_top_le_coe _ hp

/-- C10, witness: a note at latitude 200 yields an infinite distance and
is neither discovered nor playable from the origin. -/
theorem invalid_note_never_discovered_or_played_witness :
    calculateDistance 0 0 (200 : ℚ) 0 = ⊤ ∧
    ¬ marksDiscovered (some (0, 0)) ⟨"n10", "t10", 200, 0, some 100, none, false⟩ ∧
    ¬ playsNote (some (0, 0)) ⟨"n10", "t10", 200, 0, some 100, none, false⟩ :=
  invalid_note_never_discovered_or_played 0 0
    ⟨"n10", "t10", 200, 0, some 100, none, false⟩ (Or.inr (by decide))

end EchoSpot
